import Mathlib

/-!
Verification development for the NNDB / Wikipedia merge pipeline
(`wiki_spark.py`, `main_cli.py`, `wiki_lucene.py`).

The pipeline is a sequence of Spark dataframe operations built from
regular-expression extraction and replacement.  Each regex operation is
embedded here as an explicit, executable scanner over `List Char` whose
semantics were derived by hand from the Java regex engine's
leftmost-match / greedy-with-backtracking behaviour; every definition
carries the original pattern in its doc comment.  Machine strings are
`List Char`; nullable dataframe columns are `Option (List Char)`.
-/

/-- Text values are lists of characters. -/
abbrev Str := List Char

/-- Java regex `\s` character class: `[ \t\n\x0B\f\r]`. -/
def isWs (c : Char) : Bool :=
  c = ' ' ∨ c = '\t' ∨ c = '\n' ∨ c = '\x0b' ∨ c = '\x0c' ∨ c = '\r'

/-- Case-insensitive prefix test: `pat` is expected lowercase; matches the
Java `(?i)` (ASCII) semantics of the literal parts of the patterns used in
the source. -/
def ciPrefix (pat l : Str) : Bool :=
  decide ((l.take pat.length).map Char.toLower = pat)

/-- Substring containment, as used by Spark's `Column.contains`. -/
def containsSub (pat : Str) : Str → Bool
  | [] => pat.isEmpty
  | l@(_ :: rest) => (decide (l.take pat.length = pat)) || containsSub pat rest

/-- Spark SQL `trim`: removes leading and trailing space characters
(`' '` only, not general whitespace). -/
def trimSpaces (l : Str) : Str :=
  ((l.dropWhile (fun c => c = ' ')).reverse.dropWhile (fun c => c = ' ')).reverse

/-- `regexp_replace(name, r"\s*\([^)]+\)$", "")` from the join-name
normalization (wiki_spark.py line 61).  The pattern is anchored at the end,
so at most one (leftmost) match exists: the string must end in `')'`; the
matching `'('` is the first `'('` after the last earlier `')'`; the
bracketed middle is nonempty; a maximal whitespace run immediately before
the `'('` is also removed. -/
def stripParen (s : Str) : Str :=
  match s.reverse with
  | ')' :: revU =>
    let revV := revU.takeWhile (fun c => ¬ (c = ')'))
    let revP := revU.drop revV.length
    let v := revV.reverse
    let pre := v.takeWhile (fun c => ¬ (c = '('))
    if pre.length = v.length then s
    else
      let mid := v.drop (pre.length + 1)
      if mid.isEmpty then s
      else
        let w := (pre.reverse.takeWhile isWs).length
        revP.reverse ++ pre.take (pre.length - w)
  | _ => s

/-- The alternation branch `==[^=]` of the intro regex
`(?s)(.*?)(==[^=]|$)` (wiki_spark.py lines 80 and 101) matches at the head
of the remaining text. -/
def isStopPat : Str → Bool
  | '=' :: '=' :: c :: _ => decide (¬ (c = '='))
  | _ => false

/-- The `$` branch of the intro regex matches at the head of the
remaining text: end of input, or just before a final line terminator
(`"\n"`, `"\r"`, or `"\r\n"`; the rarer Unicode terminators are not
modelled). -/
def isEndPat : Str → Bool
  | [] => true
  | ['\n'] => true
  | ['\r'] => true
  | ['\r', '\n'] => true
  | _ => false

/-- Index at which the lazy group `(.*?)` of `(?s)(.*?)(==[^=]|$)` stops:
the first position where `==[^=]` or `$` matches. -/
def introStop : Str → Nat
  | [] => 0
  | l@(_ :: rest) => if isStopPat l || isEndPat l then 0 else introStop rest + 1

/-- Group 1 of the first match of `(?s)(.*?)(==[^=]|$)`: the "intro" span
(wiki_spark.py lines 78-81 and 98-102). -/
def introSpan (l : Str) : Str := l.take (introStop l)

/-- Index of the first occurrence of `"\n}}"` (the closing of the
non-recursive infobox pattern). -/
def idxOfNlBB : Str → Option Nat
  | [] => none
  | '\n' :: '\x7d' :: '\x7d' :: _ => some 0
  | _ :: rest => (idxOfNlBB rest).map (fun n => n + 1)

/-- Length of a match of the infobox pattern `(?is)\{\{infobox\s+.*?\n\}\}`
(wiki_spark.py line 83) starting at the head of `l`, if any.  Derived
semantics: case-insensitive `"{{infobox"`, then a maximal whitespace run
`W` (greedy `\s+`, must be nonempty), then the lazy `.*?` ends at the first
`"\n}}"` at or after the end of `W`; if none exists, the engine backtracks
`\s+` by one character, which succeeds only when the last character of `W`
is itself the `'\n'` of a final `"\n}}"`. -/
def matchInfoboxAt (l : Str) : Option Nat :=
  if ciPrefix "\x7b\x7binfobox".toList l then
    let rest := l.drop 9
    let w := (rest.takeWhile isWs).length
    if w = 0 then none
    else
      match idxOfNlBB (rest.drop w) with
      | some e => some (9 + w + e + 3)
      | none =>
        match rest.drop (w - 1) with
        | '\n' :: '\x7d' :: '\x7d' :: _ => some (9 + w + 2)
        | _ => none
  else none

/-- First (leftmost) match of the infobox pattern, or `[]` when there is
none — Spark's `regexp_extract(col, pattern, 0)` returns the empty string
on no match (wiki_spark.py lines 85-88). -/
def extractInfoboxGo : Str → Str
  | [] => []
  | l@(_ :: rest) =>
    match matchInfoboxAt l with
    | some len => l.take len
    | none => extractInfoboxGo rest

/-- `regexp_extract(intro, infobox_pattern, 0)`. -/
def extractInfobox (l : Str) : Str := extractInfoboxGo l

/-- Generic `regexp_replace`: scans left to right, replacing each
leftmost, non-overlapping match reported by the matcher `m` (which returns
the match length and the replacement text).  All matchers used here match
at least one character; `fuel` (always the length of the scanned text)
only serves Lean's termination checker. -/
def replaceScan (m : Str → Option (Nat × Str)) : Nat → Str → Str
  | 0, l => l
  | _ + 1, [] => []
  | fuel + 1, l@(c :: rest) =>
    match m l with
    | some (len, repl) => repl ++ replaceScan m fuel (l.drop len)
    | none => c :: replaceScan m fuel rest

/-- `regexp_replace(page_text, infobox_pattern, "")` (wiki_spark.py
lines 93-96). -/
def removeInfoboxes (l : Str) : Str :=
  replaceScan (fun s => (matchInfoboxAt s).map (fun n => (n, []))) l.length l

/-- Match of `\{\{[^{}]*\}\}` (template removal, wiki_spark.py line 107)
at the head of `l`. -/
def matchTemplateAt (l : Str) : Option (Nat × Str) :=
  match l with
  | '\x7b' :: '\x7b' :: r =>
    let b := r.takeWhile (fun c => ¬ (c = '\x7b' ∨ c = '\x7d'))
    match r.drop b.length with
    | '\x7d' :: '\x7d' :: _ => some (2 + b.length + 2, [])
    | _ => none
  | _ => none

/-- `regexp_replace(x, r"\{\{[^{}]*\}\}", "")`. -/
def stripTemplates (l : Str) : Str := replaceScan matchTemplateAt l.length l

/-- Scheme tail of `https?:\/\/` after the literal `"http"`. -/
def urlAfterScheme (r : Str) : Option (Nat × Str) :=
  match r with
  | 's' :: ':' :: '/' :: '/' :: rest => some (4, rest)
  | ':' :: '/' :: '/' :: rest => some (3, rest)
  | _ => none

/-- Match of `\[https?:\/\/[^\s\]]+\s*([^\]]*)\]` (bracketed external
links, wiki_spark.py line 113) at the head of `l`, returning the match
length and the captured label.  Greedy semantics: maximal
non-space-non-`]` URL run, then maximal whitespace, then everything up to
the next `']'`. -/
def matchUrlAt (l : Str) : Option (Nat × Str) :=
  match l with
  | '[' :: 'h' :: 't' :: 't' :: 'p' :: r =>
    match urlAfterScheme r with
    | some (k, rest) =>
      let u := rest.takeWhile (fun c => ¬ (isWs c = true ∨ c = ']'))
      if u.isEmpty then none
      else
        let r1 := rest.drop u.length
        let w := r1.takeWhile isWs
        let r2 := r1.drop w.length
        let lab := r2.takeWhile (fun c => ¬ (c = ']'))
        match r2.drop lab.length with
        | ']' :: _ => some (5 + k + u.length + w.length + lab.length + 1, lab)
        | _ => none
    | none => none
  | _ => none

/-- `regexp_replace(x, r"\[https?:\/\/[^\s\]]+\s*([^\]]*)\]", r"\1")`
(wiki_spark.py line 113).  The Python raw replacement string is the two
characters backslash-`1`; Java's `Matcher.appendReplacement` treats a
backslash as an escape for a literal character (group references are
written `$1`, as in `clean_field`), so every match is replaced by the
literal character `'1'`, not by the captured label. -/
def stripUrlLinks (l : Str) : Str :=
  replaceScan (fun s => (matchUrlAt s).map (fun p => (p.1, ['1']))) l.length l

/-- Match of `\[\[([^\]|]+)(?:\|[^\]]+)?\]\]` (wiki links, used at
wiki_spark.py lines 119 and 151) at the head of `l`, returning the match
length and the first capture. -/
def matchWikiLinkAt (l : Str) : Option (Nat × Str) :=
  match l with
  | '[' :: '[' :: r =>
    let g := r.takeWhile (fun c => ¬ (c = ']' ∨ c = '|'))
    if g.isEmpty then none
    else
      match r.drop g.length with
      | '|' :: r2 =>
        let lab := r2.takeWhile (fun c => ¬ (c = ']'))
        if lab.isEmpty then none
        else
          match r2.drop lab.length with
          | ']' :: ']' :: _ => some (2 + g.length + 1 + lab.length + 2, g)
          | _ => none
      | ']' :: ']' :: _ => some (2 + g.length + 2, g)
      | _ => none
  | _ => none

/-- `regexp_replace(x, r"\[\[([^\]|]+)(?:\|[^\]]+)?\]\]", r"$1")` as used
inside `clean_field` (wiki_spark.py line 151): `$1` is a Java group
reference, so the match is replaced by the captured link target. -/
def stripWikiLinks (l : Str) : Str := replaceScan matchWikiLinkAt l.length l

/-- `regexp_replace(x, r"\[\[([^\]|]+)(?:\|[^\]]+)?\]\]", r"\1")` as used
in the description chain (wiki_spark.py line 119).  Unlike `clean_field`,
the Python raw replacement here is backslash-`1`, which Java's
`Matcher.appendReplacement` reads as an escaped literal `'1'`, so every
wiki link in the description is replaced by the character `'1'`. -/
def stripWikiLinksLit (l : Str) : Str :=
  replaceScan (fun s => (matchWikiLinkAt s).map (fun p => (p.1, ['1'])))
    l.length l

/-- Match of `\[\d+\]` (citation markers, wiki_spark.py line 125) at the
head of `l`. -/
def matchCitationAt (l : Str) : Option (Nat × Str) :=
  match l with
  | '[' :: r =>
    let ds := r.takeWhile Char.isDigit
    if ds.isEmpty then none
    else
      match r.drop ds.length with
      | ']' :: _ => some (1 + ds.length + 1, [])
      | _ => none
  | _ => none

/-- `regexp_replace(x, r"\[\d+\]", "")`. -/
def stripCitations (l : Str) : Str := replaceScan matchCitationAt l.length l

/-- Index of the first `'>'` before any line terminator (`.` in the
un-flagged pattern `<.*?>` does not match line terminators). -/
def findGtSameLine : Str → Option Nat
  | [] => none
  | '>' :: _ => some 0
  | '\n' :: _ => none
  | '\r' :: _ => none
  | _ :: rest => (findGtSameLine rest).map (fun n => n + 1)

/-- Match of `<.*?>` (HTML tag removal, wiki_spark.py line 131 and the
`clean_field` helper, line 150) at the head of `l`. -/
def matchHtmlAt (l : Str) : Option (Nat × Str) :=
  match l with
  | '<' :: r =>
    match findGtSameLine r with
    | some i => some (i + 2, [])
    | none => none
  | _ => none

/-- `regexp_replace(x, r"<.*?>", "")`. -/
def stripHtml (l : Str) : Str := replaceScan matchHtmlAt l.length l

/-- Match of `\s+` (whitespace normalization, wiki_spark.py line 137) at
the head of `l`; replaced by a single space. -/
def matchWsRunAt (l : Str) : Option (Nat × Str) :=
  let w := l.takeWhile isWs
  if w.isEmpty then none else some (w.length, [' '])

/-- `regexp_replace(x, r"\s+", " ")`. -/
def collapseWs (l : Str) : Str := replaceScan matchWsRunAt l.length l

/-- Group 1 of the first match of `([^.!?]*[.!?])` (first sentence,
wiki_spark.py line 143): the prefix up to and including the first sentence
terminator, or `[]` when no terminator occurs anywhere. -/
def firstSentence (l : Str) : Str :=
  let pre := l.takeWhile (fun c => ¬ (c = '.' ∨ c = '!' ∨ c = '?'))
  match l.drop pre.length with
  | c :: _ => pre ++ [c]
  | [] => []

/-- The value part `\s*=\s*([^\n|]+)` of the keyed infobox field patterns
(wiki_spark.py lines 159, 180, 185), applied to the text following a
matched key.  Derived semantics: maximal whitespace, a literal `'='`,
maximal whitespace `W`, then a maximal nonempty run of
non-newline-non-pipe characters; when that run is empty the engine
backtracks the second `\s*`, which yields the last non-`'\n'` character of
`W` as a one-character value, or fails when there is none. -/
def eqValue (l : Str) : Option Str :=
  let r0 := l.drop ((l.takeWhile isWs).length)
  match r0 with
  | '=' :: r =>
    let w2 := r.takeWhile isWs
    let v := (r.drop w2.length).takeWhile (fun c => ¬ (c = '\n' ∨ c = '|'))
    if v.isEmpty then
      match (w2.filter (fun c => ¬ (c = '\n'))).getLast? with
      | some c => some [c]
      | none => none
    else some v
  | _ => none

/-- Key part of `(?i)birth[_ ]?date` (wiki_spark.py line 159): returns the
remainder of the text after the key.  The optional `[_ ]?` is greedy with
backtracking. -/
def keyBirthDate (l : Str) : Option Str :=
  if ciPrefix "birth".toList l then
    let r := l.drop 5
    match r with
    | c :: r2 =>
      if (c = '_' ∨ c = ' ') ∧ ciPrefix "date".toList r2 then some (r2.drop 4)
      else if ciPrefix "date".toList r then some (r.drop 4)
      else none
    | [] => none
  else none

/-- Key part of `(?i)occupation` (wiki_spark.py line 180). -/
def keyOccupation (l : Str) : Option Str :=
  if ciPrefix "occupation".toList l then some (l.drop 10) else none

/-- Key part of `(?i)birth_?place` (wiki_spark.py line 185). -/
def keyBirthPlace (l : Str) : Option Str :=
  if ciPrefix "birth".toList l then
    let r := l.drop 5
    match r with
    | '_' :: r2 => if ciPrefix "place".toList r2 then some (r2.drop 5) else none
    | _ => if ciPrefix "place".toList r then some (l.drop 10) else none
  else none

/-- `regexp_extract(infobox, key-pattern + value-pattern, 1)`: scans for
the leftmost position where the key matches and the value part succeeds;
returns `[]` (Spark's empty string) when there is no match. -/
def extractKeyed (keyMatch : Str → Option Str) : Str → Str
  | [] => []
  | l@(_ :: rest) =>
    match keyMatch l with
    | some after =>
      match eqValue after with
      | some v => v
      | none => extractKeyed keyMatch rest
    | none => extractKeyed keyMatch rest

/-- The `clean_field` helper (wiki_spark.py lines 146-155): HTML tags,
then wiki links, then templates, then trim. -/
def cleanField (f : Str) : Str :=
  trimSpaces (stripTemplates (stripWikiLinks (stripHtml f)))

/-- Number of digit characters in `l`. -/
def countDigits (l : Str) : Nat := (l.filter (fun c => c.isDigit)).length

/-- A character the un-flagged Java `.` cannot match: a line terminator
(`'\n'` or `'\r'`; the rarer Unicode terminators are not modelled, as for
`isEndPat`).  The value regex `[^\n|]+` admits `'\r'` into `birth_raw`,
so this matters for the gate below. -/
def isLineTerm (c : Char) : Bool := c = '\n' ∨ c = '\r'

/-- `birth_raw.rlike(r"\d{4}.*?\d{1,2}.*?\d{1,2}")` (wiki_spark.py
line 165).  The pattern carries no DOTALL flag, so its `.*?` cannot cross
a line terminator; the digit groups themselves contain no terminators, so
a match exists iff some position starts four consecutive digits with at
least two further digit characters after them and before the next line
terminator (the two `\d{1,2}` can take one digit each). -/
def birthGate : Str → Bool
  | [] => false
  | a :: rest =>
    (match rest with
     | b :: c :: d :: rest4 =>
       a.isDigit && b.isDigit && c.isDigit && d.isDigit &&
         decide (2 ≤ countDigits (rest4.takeWhile (fun x => !isLineTerm x)))
     | _ => false) || birthGate rest

/-- `regexp_extract(birth_raw, '(\d{4})', 1)` (wiki_spark.py line 168):
the first four consecutive digits, or `[]`. -/
def yearExtract : Str → Str
  | [] => []
  | a :: rest =>
    match rest with
    | b :: c :: d :: _ =>
      if a.isDigit && b.isDigit && c.isDigit && d.isDigit then [a, b, c, d]
      else yearExtract rest
    | _ => []

/-- Match of `\d{4}\D+(\d{1,2})` (month, wiki_spark.py line 170) at the
head of `l`: four digits, a maximal nonempty non-digit run, then the first
one or two digits (greedy). -/
def monthAt (l : Str) : Option Str :=
  match l with
  | a :: b :: c :: d :: rest4 =>
    if a.isDigit && b.isDigit && c.isDigit && d.isDigit then
      let nd := rest4.takeWhile (fun x => !x.isDigit)
      if nd.length = 0 then none
      else
        match rest4.drop nd.length with
        | e :: f :: _ => if f.isDigit then some [e, f] else some [e]
        | [e] => some [e]
        | [] => none
    else none
  | _ => none

/-- `regexp_extract(birth_raw, '\d{4}\D+(\d{1,2})', 1)`, leftmost match,
`[]` when none. -/
def monthExtract : Str → Str
  | [] => []
  | l@(_ :: rest) =>
    match monthAt l with
    | some m => m
    | none => monthExtract rest

/-- Match of `\d{4}\D+\d{1,2}\D+(\d{1,2})` (day, wiki_spark.py line 172)
at the head of `l`.  Derived semantics: after the four digits and the
first maximal non-digit run, the digit run standing for `\d{1,2}` must
have length one or two (a longer run makes every backtracking attempt
place `\D+` on a digit); then another maximal nonempty non-digit run and
the first one or two digits of the next run. -/
def dayAt (l : Str) : Option Str :=
  match l with
  | a :: b :: c :: d :: rest4 =>
    if a.isDigit && b.isDigit && c.isDigit && d.isDigit then
      let nd1 := rest4.takeWhile (fun x => !x.isDigit)
      if nd1.length = 0 then none
      else
        let r1 := rest4.drop nd1.length
        let run := r1.takeWhile (fun x => x.isDigit)
        if run.length = 0 ∨ 3 ≤ run.length then none
        else
          let r2 := r1.drop run.length
          let nd2 := r2.takeWhile (fun x => !x.isDigit)
          if nd2.length = 0 then none
          else
            match r2.drop nd2.length with
            | e :: f :: _ => if f.isDigit then some [e, f] else some [e]
            | [e] => some [e]
            | [] => none
    else none
  | _ => none

/-- `regexp_extract(birth_raw, '\d{4}\D+\d{1,2}\D+(\d{1,2})', 1)`,
leftmost match, `[]` when none. -/
def dayExtract : Str → Str
  | [] => []
  | l@(_ :: rest) =>
    match dayAt l with
    | some d => d
    | none => dayExtract rest

/-- Spark `lpad(x, 2, '0')`: left-pads to two characters with `'0'`,
truncating to the first two characters when longer. -/
def lpad2 (l : Str) : Str :=
  if 2 ≤ l.length then l.take 2 else List.replicate (2 - l.length) '0' ++ l

/-- The `WikiBorn` column (wiki_spark.py lines 162-176): gate with the
`rlike`, then concatenate year, padded month and padded day. -/
def wikiBornOf (raw : Str) : Str :=
  if birthGate raw then
    yearExtract raw ++ ('-' :: lpad2 (monthExtract raw)) ++
      ('-' :: lpad2 (dayExtract raw))
  else []

/-- `WikiBorn` as a function of the infobox text. -/
def wikiBornField (infobox : Str) : Str :=
  wikiBornOf (extractKeyed keyBirthDate infobox)

/-- `WikiOccupation` as a function of the infobox text (wiki_spark.py
lines 178-181). -/
def wikiOccupationField (infobox : Str) : Str :=
  cleanField (extractKeyed keyOccupation infobox)

/-- `WikiBirthplace` as a function of the infobox text (wiki_spark.py
lines 183-186). -/
def wikiBirthplaceField (infobox : Str) : Str :=
  cleanField (extractKeyed keyBirthPlace infobox)

/-- The `WikiDescription` column as a function of the raw page text
(wiki_spark.py lines 92-144): remove all infobox blocks, recompute the
intro span, strip templates, replace external links and wiki links (each
by the literal character `'1'` — the replacement strings at lines 113 and
119 are the raw text backslash-`1`, an escaped literal in Java, unlike
`clean_field`'s `$1`), strip citations and HTML tags, collapse
whitespace, take the first sentence, and trim. -/
def wikiDescriptionField (t : Str) : Str :=
  trimSpaces (firstSentence (collapseWs (stripHtml (stripCitations
    (stripWikiLinksLit (stripUrlLinks (stripTemplates
      (introSpan (removeInfoboxes t)))))))))

/-- One row of the NNDB reference table (the `ReferenceRecord` of the
spec).  Spark's CSV reader yields `null` for empty fields, so every column
is nullable; the claims treat the standard schema with all five columns
present. -/
structure RefRow where
  Name : Option Str
  Born : Option Str
  Occupation : Option Str
  Birthplace : Option Str
  Description : Option Str
deriving DecidableEq

/-- One page of the corpus (the `ArticlePage` of the spec): title,
namespace and optional revision text. -/
structure Article where
  title : Str
  ns : Option Int
  text : Option Str
deriving DecidableEq

/-- One accepted row of the extracted dataframe after the select at
wiki_spark.py lines 188-191 (the `ExtractedFields` of the spec).  All
columns are non-null strings: `regexp_extract` never returns null. -/
structure WikiRow where
  Name : Str
  WikiDescription : Str
  WikiBorn : Str
  WikiOccupation : Str
  WikiBirthplace : Str
deriving DecidableEq

/-- One output row together with its `field_updated` counter (the
`MergedRecord` of the spec; the counter is aggregated and then dropped
before writing). -/
structure MergedRow where
  Name : Option Str
  Born : Option Str
  Occupation : Option Str
  Birthplace : Option Str
  Description : Option Str
  fieldUpdated : Nat
deriving DecidableEq

/-- Extraction for an article that passed the namespace, body, marker,
disambiguation and name-join filters (wiki_spark.py lines 78-198):
extract the infobox from the intro, drop the article when there is none,
compute the four extracted columns and drop the article when all four are
empty. -/
def processAccepted (title t : Str) : Option WikiRow :=
  let infobox := extractInfobox (introSpan t)
  if infobox = [] then none
  else
    let born := wikiBornField infobox
    let occ := wikiOccupationField infobox
    let bp := wikiBirthplaceField infobox
    let desc := wikiDescriptionField t
    if born ≠ [] ∨ occ ≠ [] ∨ bp ≠ [] ∨ desc ≠ [] then
      some ⟨title, desc, born, occ, bp⟩
    else none

/-- Per-article view of the corpus side of the pipeline (wiki_spark.py
lines 51-198): keep namespace 0, non-null body, body containing
`"{{Infobox"` or `"{{infobox"`; keep only titles equal to their stripped
join name; keep only join names present in the reference name set (the
inner join with the distinct reference names at line 71: membership in
the name list is exactly the distinct inner join on equality, nulls
excluded); then run the accepted-article extraction.  Every local failure
yields `none`; the function is total, so no article can abort the run. -/
def processArticle (names : List Str) (a : Article) : Option WikiRow :=
  if a.ns = some 0 then
    match a.text with
    | none => none
    | some t =>
      if containsSub "\x7b\x7bInfobox".toList t ||
          containsSub "\x7b\x7binfobox".toList t then
        if a.title = trimSpaces (stripParen a.title) ∧
            trimSpaces (stripParen a.title) ∈ names then
          processAccepted a.title t
        else none
      else none
  else none

/-- The non-null reference names (the distinct name set broadcast for the
inner join; `null` names never join, so dropping them is equivalent). -/
def namesOf (nndb : List RefRow) : List Str := nndb.filterMap (fun r => r.Name)

/-- All accepted extracted rows of a corpus. -/
def processCorpus (nndb : List RefRow) (arts : List Article) : List WikiRow :=
  arts.filterMap (processArticle (namesOf nndb))

/-- The `is_empty` helper (wiki_spark.py lines 206-207): null or blank
after trimming. -/
def isEmptyV : Option Str → Bool
  | none => true
  | some s => decide (trimSpaces s = [])

/-- The `is_not_empty` helper (wiki_spark.py lines 209-210). -/
def isNotEmptyV : Option Str → Bool
  | none => false
  | some s => decide (¬ (trimSpaces s = []))

/-- SQL three-valued `col != col` as used in the merge conditions: null
compared with anything is not true. -/
def neqV : Option Str → Option Str → Bool
  | some a, some b => decide (¬ (a = b))
  | _, _ => false

/-- Merge of one overwritable column (`Born`, `Occupation`,
`Birthplace`; wiki_spark.py lines 222-229 etc.): replace when the
reference value is empty, or when the extracted value is non-empty and
differs. -/
def mergeField (rv ev : Option Str) : Option Str :=
  if isEmptyV rv || (isNotEmptyV ev && neqV rv ev) then ev else rv

/-- Contribution of one overwritable column to `field_updated`
(wiki_spark.py lines 213-221 etc.): one exactly when both values are
non-empty and differ. -/
def updField (rv ev : Option Str) : Nat :=
  if isNotEmptyV ev && isNotEmptyV rv && neqV rv ev then 1 else 0

/-- Merge of the `Description` column (wiki_spark.py lines 275-282):
fill only when the reference value is empty; no counter. -/
def mergeDescField (rv ev : Option Str) : Option Str :=
  if isEmptyV rv then ev else rv

/-- Merge of one joined row (reference row plus optional matched
extraction — the `MatchedPair` of the spec): wiki_spark.py lines 204-273.
An unmatched row has null extracted columns. -/
def mergeRow (r : RefRow) (m : Option WikiRow) : MergedRow :=
  ⟨r.Name,
   mergeField r.Born (Option.map (fun w => w.WikiBorn) m),
   mergeField r.Occupation (Option.map (fun w => w.WikiOccupation) m),
   mergeField r.Birthplace (Option.map (fun w => w.WikiBirthplace) m),
   mergeDescField r.Description (Option.map (fun w => w.WikiDescription) m),
   updField r.Born (Option.map (fun w => w.WikiBorn) m) +
     updField r.Occupation (Option.map (fun w => w.WikiOccupation) m) +
     updField r.Birthplace (Option.map (fun w => w.WikiBirthplace) m)⟩

/-- Join condition of `nndb_df.join(broadcast(wiki_df), on="Name",
how="left")` (wiki_spark.py line 202); a null reference name matches
nothing. -/
def rowMatches (r : RefRow) (w : WikiRow) : Bool :=
  match r.Name with
  | some n => decide (n = w.Name)
  | none => false

/-- Left-outer-join rows produced for one reference row: one row per
matching extracted row, or a single null-extended row when none match. -/
def joinOne (r : RefRow) (ws : List WikiRow) : List (RefRow × Option WikiRow) :=
  match ws.filter (rowMatches r) with
  | [] => [(r, none)]
  | w :: rest => (w :: rest).map (fun w2 => (r, some w2))

/-- The joined-and-merged output for a reference table and a set of
accepted extracted rows. -/
def mergeAll (nndb : List RefRow) (ws : List WikiRow) : List MergedRow :=
  match nndb with
  | [] => []
  | r :: rest => (joinOne r ws).map (fun p => mergeRow p.1 p.2) ++ mergeAll rest ws

/-- End-to-end merge pipeline on parsed inputs. -/
def runPipeline (nndb : List RefRow) (arts : List Article) : List MergedRow :=
  mergeAll nndb (processCorpus nndb arts)

/-- A flat file system: an association list from path to content; a
lookup returns the most recent write. -/
structure FSt where
  files : List (String × String)
deriving DecidableEq

/-- Content at a path, or `none` when the file does not exist. -/
def FSt.lookupF (fs : FSt) (p : String) : Option String :=
  (fs.files.find? (fun e => decide (e.1 = p))).map (fun e => e.2)

/-- Write (create or overwrite) a file. -/
def FSt.writeF (fs : FSt) (p v : String) : FSt := ⟨(p, v) :: fs.files⟩

/-- Remove a file. -/
def FSt.removeF (fs : FSt) (p : String) : FSt :=
  ⟨fs.files.filter (fun e => decide (¬ (e.1 = p)))⟩

/-- `os.rename(src, dst)`: move the content, replacing any existing
destination (a no-op when the source is missing, which cannot happen on
the driver's success path). -/
def FSt.renameF (fs : FSt) (src dst : String) : FSt :=
  match fs.lookupF src with
  | some v => (fs.removeF src).writeF dst v
  | none => fs

/-- The temporary part file Spark writes under `output_temp`
(wiki_spark.py line 297). -/
def tmpPartPath : String := "output_temp/part-00000.csv"

/-- The driver shell of `run_spark_merge_logic` (wiki_spark.py lines
8-13 and 295-320): refuse to start when either input path is missing
(returning `False` after a printed diagnostic, before any processing);
otherwise run the Spark job — abstracted here as `process`, the merge
pipeline applied to the parsed file contents, with `none` standing for
any exception, after which nothing is published and `False` is returned —
then write the full result to the temporary part file and publish it by
renaming onto the output path. -/
def runMergeDriver (process : String → String → Option String) (fs : FSt)
    (nndbPath wikiPath outPath : String) : FSt × Bool :=
  match fs.lookupF nndbPath with
  | none => (fs, false)
  | some nndbData =>
    match fs.lookupF wikiPath with
    | none => (fs, false)
    | some wikiData =>
      match process nndbData wikiData with
      | none => (fs, false)
      | some outData =>
        let fs1 := fs.writeF tmpPartPath outData
        let fs2 := fs1.renameF tmpPartPath outPath
        (fs2, true)

/-! Helper lemmas. -/

lemma isEmptyV_false_of (v : Option Str) (h : isNotEmptyV v = true) :
    isEmptyV v = false := by
  cases v with
  | none => simp [isNotEmptyV] at h
  | some s => simp only [isNotEmptyV, decide_eq_true_eq] at h
              simp [isEmptyV, h]

lemma isNotEmptyV_false_of (v : Option Str) (h : isEmptyV v = true) :
    isNotEmptyV v = false := by
  cases v with
  | none => rfl
  | some s => simp only [isEmptyV, decide_eq_true_eq] at h
              simp [isNotEmptyV, h]

lemma neqV_true_of (a b : Str) (h : ¬ (a = b)) :
    neqV (some a) (some b) = true := by
  simp [neqV, h]

lemma containsSub_map (f : Char → Char) (pat l : Str)
    (h : containsSub pat l = true) :
    containsSub (pat.map f) (l.map f) = true := by
  induction l with
  | nil =>
    simp only [containsSub, List.isEmpty_iff] at h
    simp [containsSub, h]
  | cons c rest ih =>
    simp only [containsSub, Bool.or_eq_true, decide_eq_true_eq] at h
    rcases h with h | h
    · have h2 : ((c :: rest).map f).take ((pat.map f).length) = pat.map f := by
        rw [List.length_map, ← List.map_take, h]
      simp only [List.map_cons, containsSub, Bool.or_eq_true, decide_eq_true_eq]
      left
      simpa using h2
    · simp only [List.map_cons, containsSub, Bool.or_eq_true]
      right
      exact ih h

lemma introStop_spec (l : Str) :
    introStop l ≤ l.length ∧
    (∀ j, j < introStop l → isStopPat (l.drop j) = false) ∧
    (isStopPat (l.drop (introStop l)) = true ∨
      isEndPat (l.drop (introStop l)) = true) := by
  induction l with
  | nil =>
    exact ⟨Nat.le_refl 0, fun j hj => absurd hj (Nat.not_lt_zero j), Or.inr rfl⟩
  | cons a l ih =>
    by_cases h : (isStopPat (a :: l) || isEndPat (a :: l)) = true
    · have h0 : introStop (a :: l) = 0 := by simp [introStop, h]
      refine ⟨by simp [h0], fun j hj => absurd (h0 ▸ hj) (Nat.not_lt_zero j), ?_⟩
      rw [h0, List.drop_zero]
      exact by simpa using h
    · have hboth : isStopPat (a :: l) = false ∧ isEndPat (a :: l) = false := by
        simpa using h
      have hst := hboth.1
      have hen := hboth.2
      have h1 : introStop (a :: l) = introStop l + 1 := by simp [introStop, h]
      refine ⟨?_, ?_, ?_⟩
      · rw [h1, List.length_cons]
        exact Nat.succ_le_succ ih.1
      · intro j hj
        cases j with
        | zero => simpa using hst
        | succ j' =>
          rw [List.drop_succ_cons]
          exact ih.2.1 j' (by omega)
      · rw [h1, List.drop_succ_cons]
        exact ih.2.2

/-! Claim theorems. -/

/-- C2: for an overwritable field, a non-empty reference value that
differs from a non-empty extracted value is replaced by the extracted
value and contributes exactly 1 to the per-record `field_updated` counter;
filling an empty reference value contributes 0; and `mergeRow` applies
exactly these per-field operations to `Born`, `Occupation` and
`Birthplace`, summing the contributions into the per-record counter. -/
theorem C2_overwrite_policy (rv ev rv2 ev2 : Option Str) (r : RefRow) (w : WikiRow)
    (h1 : isNotEmptyV rv = true) (h2 : isNotEmptyV ev = true)
    (h3 : ¬ (rv = ev)) (h4 : isEmptyV rv2 = true) (h5 : isNotEmptyV ev2 = true) :
    mergeField rv ev = ev ∧ updField rv ev = 1 ∧
    mergeField rv2 ev2 = ev2 ∧ updField rv2 ev2 = 0 ∧
    (mergeRow r (some w)).Born = mergeField r.Born (some w.WikiBorn) ∧
    (mergeRow r (some w)).Occupation =
      mergeField r.Occupation (some w.WikiOccupation) ∧
    (mergeRow r (some w)).Birthplace =
      mergeField r.Birthplace (some w.WikiBirthplace) ∧
    (mergeRow r (some w)).fieldUpdated =
      updField r.Born (some w.WikiBorn) +
        updField r.Occupation (some w.WikiOccupation) +
        updField r.Birthplace (some w.WikiBirthplace) := by
  have hne : isEmptyV rv = false := isEmptyV_false_of rv h1
  have hq : neqV rv ev = true := by
    cases rv with
    | none => simp [isNotEmptyV] at h1
    | some a =>
      cases ev with
      | none => simp [isNotEmptyV] at h2
      | some b =>
        refine neqV_true_of a b (fun hab => h3 ?_)
        rw [hab]
  have h4' : isNotEmptyV rv2 = false := isNotEmptyV_false_of rv2 h4
  refine ⟨?_, ?_, ?_, ?_, rfl, rfl, rfl, rfl⟩
  · simp [mergeField, hne, h2, hq]
  · simp [updField, h1, h2, hq]
  · simp [mergeField, h4]
  · simp [updField, h4']

/-- C2 witness: reference Born "1802" and extracted Born "1815" (both
non-empty, different) merge to "1815" with counter contribution 1, while
an empty reference value filled from "1815" contributes 0. -/
theorem C2_overwrite_policy_witness :
    mergeField (some "1802".toList) (some "1815".toList) = some "1815".toList ∧
    updField (some "1802".toList) (some "1815".toList) = 1 ∧
    mergeField (some "".toList) (some "1815".toList) = some "1815".toList ∧
    updField (some "".toList) (some "1815".toList) = 0 ∧
    (mergeRow ⟨some "X".toList, some "1802".toList, none, none, none⟩
        (some ⟨"X".toList, [], "1815".toList, [], []⟩)).Born =
      mergeField (some "1802".toList) (some "1815".toList) ∧
    (mergeRow ⟨some "X".toList, some "1802".toList, none, none, none⟩
        (some ⟨"X".toList, [], "1815".toList, [], []⟩)).Occupation =
      mergeField none (some ([] : Str)) ∧
    (mergeRow ⟨some "X".toList, some "1802".toList, none, none, none⟩
        (some ⟨"X".toList, [], "1815".toList, [], []⟩)).Birthplace =
      mergeField none (some ([] : Str)) ∧
    (mergeRow ⟨some "X".toList, some "1802".toList, none, none, none⟩
        (some ⟨"X".toList, [], "1815".toList, [], []⟩)).fieldUpdated =
      updField (some "1802".toList) (some "1815".toList) +
        updField none (some ([] : Str)) + updField none (some ([] : Str)) :=
  C2_overwrite_policy (some "1802".toList) (some "1815".toList)
    (some "".toList) (some "1815".toList)
    ⟨some "X".toList, some "1802".toList, none, none, none⟩
    ⟨"X".toList, [], "1815".toList, [], []⟩
    (by decide) (by decide) (by decide) (by decide) (by decide)

/-- C3: the merged `Description` equals the reference description whenever
the latter is non-empty, whatever the match holds; an empty reference
description is filled with the (possibly null) extracted description. -/
theorem C3_description_policy (r : RefRow) (m : Option WikiRow)
    (r2 : RefRow) (m2 : Option WikiRow)
    (h1 : isNotEmptyV r.Description = true) (h2 : isEmptyV r2.Description = true) :
    (mergeRow r m).Description = r.Description ∧
    (mergeRow r2 m2).Description =
      Option.map (fun w => w.WikiDescription) m2 := by
  constructor
  · simp [mergeRow, mergeDescField, isEmptyV_false_of r.Description h1]
  · simp [mergeRow, mergeDescField, h2]

/-- C3 witness: a non-empty reference description survives a differing
non-empty extracted description; an empty one is filled. -/
theorem C3_description_policy_witness :
    (mergeRow ⟨some "X".toList, none, none, none, some "A poet.".toList⟩
        (some ⟨"X".toList, "A writer.".toList, [], [], []⟩)).Description =
      some "A poet.".toList ∧
    (mergeRow ⟨some "X".toList, none, none, none, none⟩
        (some ⟨"X".toList, "A writer.".toList, [], [], []⟩)).Description =
      Option.map (fun w => w.WikiDescription)
        (some (⟨"X".toList, "A writer.".toList, [], [], []⟩ : WikiRow)) :=
  C3_description_policy
    ⟨some "X".toList, none, none, none, some "A poet.".toList⟩
    (some ⟨"X".toList, "A writer.".toList, [], [], []⟩)
    ⟨some "X".toList, none, none, none, none⟩
    (some ⟨"X".toList, "A writer.".toList, [], [], []⟩)
    (by decide) (by decide)

/-- C4: an article whose title differs from its stripped, trimmed join
name (in particular any title carrying a trailing parenthetical
qualifier) is excluded entirely by the disambiguation filter: it yields no
extracted row for any reference name set, even when no sibling article
with the unqualified title exists. -/
theorem C4_disambiguation_filter (names : List Str) (a : Article)
    (h : ¬ (a.title = trimSpaces (stripParen a.title))) :
    processArticle names a = none := by
  unfold processArticle
  split
  · split
    · rfl
    · split
      · rw [if_neg]
        intro hc
        exact h hc.1
      · rfl
  · rfl

/-- C4 witness: `"Ada Lovelace (mathematician)"` is excluded even though
its body holds a well-formed infobox and `"Ada Lovelace"` is among the
reference names. -/
theorem C4_disambiguation_filter_witness :
    processArticle ["Ada Lovelace".toList]
      ⟨"Ada Lovelace (mathematician)".toList, some 0,
        some "\x7b\x7bInfobox person\n|occupation = mathematician\n\x7d\x7d".toList⟩ =
      none :=
  C4_disambiguation_filter ["Ada Lovelace".toList]
    ⟨"Ada Lovelace (mathematician)".toList, some 0,
      some "\x7b\x7bInfobox person\n|occupation = mathematician\n\x7d\x7d".toList⟩
    (by decide)

/-- Spec-side overapproximation of "contains a level-2 section heading
`==...==`": two occurrences of `"=="`, the second strictly after the
first.  Any substring of the form `==`...`==` makes this true, so its
falsity certifies that no level-2 heading occurs anywhere in the text. -/
def afterFirstDoubleEq : Str → Option Str
  | [] => none
  | '=' :: '=' :: r => some r
  | _ :: r => afterFirstDoubleEq r

/-- See `afterFirstDoubleEq`. -/
def hasL2HeadingUB (l : Str) : Bool :=
  match afterFirstDoubleEq l with
  | some r => (afterFirstDoubleEq r).isSome
  | none => false

/-- C7 counterexample: the body `"a == b"` contains no level-2 heading
`==...==` of any form (certified by `hasL2HeadingUB`), yet the extracted
intro span is `"a "`, not the whole body — the regex `(?s)(.*?)(==[^=]|$)`
stops at any `"=="` followed by a non-`'='`, heading or not. -/
theorem C7_intro_span_counterexample :
    hasL2HeadingUB "a == b".toList = false ∧
    ¬ (introSpan "a == b".toList = "a == b".toList) ∧
    introSpan "a == b".toList = "a ".toList := by
  decide

/-- C7 (amended): the intro span is the longest prefix of the body before
the first position at which either `"=="` followed by a character other
than `'='` occurs, or the end of input (allowing one final line
terminator) is reached; in particular it stops at `"=="` occurrences that
are not level-2 headings, and drops a final line terminator when no stop
pattern occurs. -/
theorem C7_intro_span_chars (l : Str) :
    introSpan l = l.take (introStop l) ∧
    introStop l ≤ l.length ∧
    (∀ j, j < introStop l → isStopPat (l.drop j) = false) ∧
    (isStopPat (l.drop (introStop l)) = true ∨
      isEndPat (l.drop (introStop l)) = true) :=
  ⟨rfl, introStop_spec l⟩

/-- C7 witness: the amended characterization evaluated on a body with a
genuine level-2 heading. -/
theorem C7_intro_span_witness :
    introSpan "Jane Doe was a poet.\n== Life ==\nBorn in 1802.".toList =
      ("Jane Doe was a poet.\n== Life ==\nBorn in 1802.".toList).take
        (introStop "Jane Doe was a poet.\n== Life ==\nBorn in 1802.".toList) ∧
    introStop "Jane Doe was a poet.\n== Life ==\nBorn in 1802.".toList ≤
      ("Jane Doe was a poet.\n== Life ==\nBorn in 1802.".toList).length :=
  ⟨(C7_intro_span_chars ("Jane Doe was a poet.\n== Life ==\nBorn in 1802.".toList)).1,
   (C7_intro_span_chars ("Jane Doe was a poet.\n== Life ==\nBorn in 1802.".toList)).2.1⟩

/-- C8: a reference row matched by no accepted extracted row produces
exactly the single null-extended joined row, and merging it copies the
name and every non-empty field through unchanged. -/
theorem C8_unmatched_passthrough (r : RefRow) (ws : List WikiRow)
    (h : ∀ w ∈ ws, rowMatches r w = false) :
    joinOne r ws = [(r, none)] ∧
    (mergeRow r none).Name = r.Name ∧
    (isNotEmptyV r.Born = true → (mergeRow r none).Born = r.Born) ∧
    (isNotEmptyV r.Occupation = true →
      (mergeRow r none).Occupation = r.Occupation) ∧
    (isNotEmptyV r.Birthplace = true →
      (mergeRow r none).Birthplace = r.Birthplace) ∧
    (isNotEmptyV r.Description = true →
      (mergeRow r none).Description = r.Description) := by
  have hf : ws.filter (rowMatches r) = [] := by
    rw [List.filter_eq_nil_iff]
    intro w hw
    simp [h w hw]
  refine ⟨by simp [joinOne, hf], rfl, ?_, ?_, ?_, ?_⟩
  · intro hne
    simp [mergeRow, mergeField, isEmptyV_false_of _ hne, isNotEmptyV]
  · intro hne
    simp [mergeRow, mergeField, isEmptyV_false_of _ hne, isNotEmptyV]
  · intro hne
    simp [mergeRow, mergeField, isEmptyV_false_of _ hne, isNotEmptyV]
  · intro hne
    simp [mergeRow, mergeDescField, isEmptyV_false_of _ hne]

/-- C8 witness: a fully populated reference row beside one extracted row
with a different name passes through unchanged. -/
theorem C8_unmatched_passthrough_witness :
    joinOne ⟨some "Jane".toList, some "1802".toList, some "poet".toList,
        some "London".toList, some "A poet.".toList⟩
      [⟨"John".toList, [], "1799".toList, [], []⟩] =
      [(⟨some "Jane".toList, some "1802".toList, some "poet".toList,
          some "London".toList, some "A poet.".toList⟩, none)] ∧
    (mergeRow ⟨some "Jane".toList, some "1802".toList, some "poet".toList,
        some "London".toList, some "A poet.".toList⟩ none).Name =
      some "Jane".toList ∧
    (isNotEmptyV (some "1802".toList) = true →
      (mergeRow ⟨some "Jane".toList, some "1802".toList, some "poet".toList,
          some "London".toList, some "A poet.".toList⟩ none).Born =
        some "1802".toList) ∧
    (isNotEmptyV (some "poet".toList) = true →
      (mergeRow ⟨some "Jane".toList, some "1802".toList, some "poet".toList,
          some "London".toList, some "A poet.".toList⟩ none).Occupation =
        some "poet".toList) ∧
    (isNotEmptyV (some "London".toList) = true →
      (mergeRow ⟨some "Jane".toList, some "1802".toList, some "poet".toList,
          some "London".toList, some "A poet.".toList⟩ none).Birthplace =
        some "London".toList) ∧
    (isNotEmptyV (some "A poet.".toList) = true →
      (mergeRow ⟨some "Jane".toList, some "1802".toList, some "poet".toList,
          some "London".toList, some "A poet.".toList⟩ none).Description =
        some "A poet.".toList) :=
  C8_unmatched_passthrough
    ⟨some "Jane".toList, some "1802".toList, some "poet".toList,
      some "London".toList, some "A poet.".toList⟩
    [⟨"John".toList, [], "1799".toList, [], []⟩]
    (by decide)

lemma lookupF_writeF_self (fs : FSt) (p v : String) :
    (fs.writeF p v).lookupF p = some v := by
  simp [FSt.lookupF, FSt.writeF, List.find?]

lemma lookupF_writeF_ne (fs : FSt) (p q v : String) (h : ¬ (q = p)) :
    (fs.writeF p v).lookupF q = fs.lookupF q := by
  have hd : decide (p = q) = false := by
    simp only [decide_eq_false_iff_not]
    intro hh
    exact h hh.symm
  simp [FSt.lookupF, FSt.writeF, List.find?, hd]

lemma lookupF_removeF_self (fs : FSt) (p : String) :
    (fs.removeF p).lookupF p = none := by
  simp only [FSt.lookupF, FSt.removeF]
  rw [List.find?_eq_none.2]
  · rfl
  · intro e he
    have := (List.mem_filter.1 he).2
    simpa using this

/-- C9: the driver refuses to run when either input path is missing,
returning `false` with the file system untouched (so no output file is
produced); and a successful run publishes the complete result by writing
it to the temporary part file and renaming it onto the output path, after
which the output path holds exactly the processed data and the temporary
file is gone. -/
theorem C9_driver_fatal_and_publish (process : String → String → Option String)
    (fs fs2 : FSt) (np wp op a b c : String)
    (hmiss : fs.lookupF np = none ∨ fs.lookupF wp = none)
    (ha : fs2.lookupF np = some a) (hb : fs2.lookupF wp = some b)
    (hc : process a b = some c) (hop : ¬ (op = tmpPartPath)) :
    runMergeDriver process fs np wp op = (fs, false) ∧
    runMergeDriver process fs2 np wp op =
      ((fs2.writeF tmpPartPath c).renameF tmpPartPath op, true) ∧
    ((fs2.writeF tmpPartPath c).renameF tmpPartPath op).lookupF op = some c ∧
    ((fs2.writeF tmpPartPath c).renameF tmpPartPath op).lookupF tmpPartPath =
      none := by
  have hren : (fs2.writeF tmpPartPath c).renameF tmpPartPath op =
      ((fs2.writeF tmpPartPath c).removeF tmpPartPath).writeF op c := by
    rw [FSt.renameF, lookupF_writeF_self]
  refine ⟨?_, ?_, ?_, ?_⟩
  · rcases hmiss with h | h
    · simp [runMergeDriver, h]
    · cases hnp : fs.lookupF np with
      | none => simp [runMergeDriver, hnp]
      | some x => simp [runMergeDriver, hnp, h]
  · simp [runMergeDriver, ha, hb, hc]
  · rw [hren, lookupF_writeF_self]
  · rw [hren, lookupF_writeF_ne _ _ _ _ (fun hh => hop hh.symm),
      lookupF_removeF_self]

/-- C9 witness: a file system missing the reference input aborts with no
change; with both inputs present the published output equals the
processed data and the temporary part file is removed. -/
theorem C9_driver_fatal_and_publish_witness :
    runMergeDriver (fun x y => some (x ++ y)) (⟨[("wiki.xml", "W")]⟩ : FSt)
      "ref.tsv" "wiki.xml" "output.tsv" = (⟨[("wiki.xml", "W")]⟩, false) ∧
    runMergeDriver (fun x y => some (x ++ y))
      (⟨[("ref.tsv", "R"), ("wiki.xml", "W")]⟩ : FSt)
      "ref.tsv" "wiki.xml" "output.tsv" =
      (((⟨[("ref.tsv", "R"), ("wiki.xml", "W")]⟩ : FSt).writeF tmpPartPath
          "RW").renameF tmpPartPath "output.tsv", true) ∧
    (((⟨[("ref.tsv", "R"), ("wiki.xml", "W")]⟩ : FSt).writeF tmpPartPath
        "RW").renameF tmpPartPath "output.tsv").lookupF "output.tsv" =
      some "RW" ∧
    (((⟨[("ref.tsv", "R"), ("wiki.xml", "W")]⟩ : FSt).writeF tmpPartPath
        "RW").renameF tmpPartPath "output.tsv").lookupF tmpPartPath = none :=
  C9_driver_fatal_and_publish (fun x y => some (x ++ y))
    ⟨[("wiki.xml", "W")]⟩ ⟨[("ref.tsv", "R"), ("wiki.xml", "W")]⟩
    "ref.tsv" "wiki.xml" "output.tsv" "R" "W" "RW"
    (Or.inl (by decide)) (by decide) (by decide) rfl (by decide)

/-- C6: an article yields an extracted row only when its namespace is 0
and its body is present, non-empty, and contains the token
`"{{infobox"` case-insensitively (the source checks the two literal
variants `"{{Infobox"` and `"{{infobox"`, each of which contains the
token case-insensitively); articles failing any precondition yield
`none`, and the extraction is a total function, so no article can abort
the run. -/
theorem C6_extraction_preconditions (names : List Str) (a : Article)
    (row : WikiRow) (h : processArticle names a = some row) :
    a.ns = some 0 ∧
    ∃ t, a.text = some t ∧ ¬ (t = []) ∧
      containsSub "\x7b\x7binfobox".toList (t.map Char.toLower) = true := by
  unfold processArticle at h
  by_cases hns : a.ns = some 0
  case neg => rw [if_neg hns] at h; cases h
  rw [if_pos hns] at h
  cases htext : a.text with
  | none => rw [htext] at h; cases h
  | some t =>
    rw [htext] at h
    dsimp only at h
    by_cases hc : (containsSub "\x7b\x7bInfobox".toList t ||
        containsSub "\x7b\x7binfobox".toList t) = true
    case neg => rw [if_neg hc] at h; cases h
    have hci : containsSub "\x7b\x7binfobox".toList (t.map Char.toLower) = true := by
      rcases (by simpa using hc :
          containsSub "\x7b\x7bInfobox".toList t = true ∨
            containsSub "\x7b\x7binfobox".toList t = true) with h1 | h1
      · have h2 := containsSub_map Char.toLower _ _ h1
        rwa [show ("\x7b\x7bInfobox".toList.map Char.toLower) =
          "\x7b\x7binfobox".toList from by decide] at h2
      · have h2 := containsSub_map Char.toLower _ _ h1
        rwa [show ("\x7b\x7binfobox".toList.map Char.toLower) =
          "\x7b\x7binfobox".toList from by decide] at h2
    have htne : ¬ (t = []) := by
      intro ht
      rw [ht] at hc
      exact absurd hc (by decide)
    exact ⟨hns, t, rfl, htne, hci⟩

/-- C6 witness: a namespace-0 article with an infobox yields a row, and
the preconditions hold for it. -/
theorem C6_extraction_preconditions_witness :
    (⟨"X".toList, some 0,
        some "\x7b\x7bInfobox person\n|occupation = singer\n\x7d\x7d".toList⟩ :
      Article).ns = some 0 ∧
    ∃ t, (⟨"X".toList, some 0,
        some "\x7b\x7bInfobox person\n|occupation = singer\n\x7d\x7d".toList⟩ :
      Article).text = some t ∧ ¬ (t = []) ∧
      containsSub "\x7b\x7binfobox".toList (t.map Char.toLower) = true :=
  C6_extraction_preconditions ["X".toList]
    ⟨"X".toList, some 0,
      some "\x7b\x7bInfobox person\n|occupation = singer\n\x7d\x7d".toList⟩
    ⟨"X".toList, [], [], "singer".toList, []⟩
    (by decide)

/-- C10: an article whose four extracted fields are all empty is dropped
by the final extraction filter — it yields no extracted row for any
reference name set, even when its body holds an infobox — and the
pipeline output is exactly what it would be had the article not existed,
so its reference record is merged as if no match existed. -/
theorem C10_all_empty_dropped (names : List Str) (nndb : List RefRow)
    (arts : List Article) (a : Article) (t : Str) (ht : a.text = some t)
    (hb : wikiBornField (extractInfobox (introSpan t)) = [])
    (ho : wikiOccupationField (extractInfobox (introSpan t)) = [])
    (hp : wikiBirthplaceField (extractInfobox (introSpan t)) = [])
    (hd : wikiDescriptionField t = []) :
    processArticle names a = none ∧
    runPipeline nndb (a :: arts) = runPipeline nndb arts := by
  have hacc : processAccepted a.title t = none := by
    simp only [processAccepted]
    split
    · rfl
    · simp [hb, ho, hp, hd]
  have hnone : ∀ ns2 : List Str, processArticle ns2 a = none := by
    intro ns2
    unfold processArticle
    split
    · rw [ht]
      dsimp only
      split
      · split
        · exact hacc
        · rfl
      · rfl
    · rfl
  refine ⟨hnone names, ?_⟩
  simp [runPipeline, processCorpus, List.filterMap_cons, hnone (namesOf nndb)]

/-- C10 witness: an accepted article whose body is a bare infobox with no
recognized fields (so all four extractions are empty) is dropped, and the
one-record pipeline output matches the article-free run. -/
theorem C10_all_empty_dropped_witness :
    processArticle ["X".toList]
      (⟨"X".toList, some 0, some "\x7b\x7bInfobox person\n\x7d\x7d".toList⟩ :
        Article) = none ∧
    runPipeline [⟨some "X".toList, some "1900".toList, none, none, none⟩]
      [⟨"X".toList, some 0, some "\x7b\x7bInfobox person\n\x7d\x7d".toList⟩] =
      runPipeline [⟨some "X".toList, some "1900".toList, none, none, none⟩] [] :=
  C10_all_empty_dropped ["X".toList]
    [⟨some "X".toList, some "1900".toList, none, none, none⟩] []
    ⟨"X".toList, some 0, some "\x7b\x7bInfobox person\n\x7d\x7d".toList⟩
    "\x7b\x7bInfobox person\n\x7d\x7d".toList
    rfl (by decide) (by decide) (by decide) (by decide)

lemma joinOne_length_le_one (r : RefRow) (ws : List WikiRow)
    (h : (ws.filter (rowMatches r)).length ≤ 1) : (joinOne r ws).length = 1 := by
  unfold joinOne
  rcases hf : ws.filter (rowMatches r) with _ | ⟨w, rest⟩
  · rfl
  · rw [hf] at h
    cases rest with
    | nil => rfl
    | cons w2 rest2 => simp at h

lemma mergeAll_length (nndb : List RefRow) (ws : List WikiRow)
    (h : ∀ r ∈ nndb, (ws.filter (rowMatches r)).length ≤ 1) :
    (mergeAll nndb ws).length = nndb.length := by
  induction nndb with
  | nil => rfl
  | cons r rest ih =>
    have h1 : (joinOne r ws).length = 1 :=
      joinOne_length_le_one r ws (h r (by simp))
    simp [mergeAll, h1, ih (fun r2 hr2 => h r2 (by simp [hr2]))]
    omega

/-- C1 counterexample: one reference record named `"X"` and a corpus of
two accepted articles both titled exactly `"X"` (no parenthetical
qualifier, so both survive the disambiguation filter and share the join
key `"X"`) produce two output rows for one reference record — the plain
left join duplicates the record, so the output record count exceeds the
reference record count. -/
theorem C1_cardinality_counterexample :
    (runPipeline [⟨some "X".toList, some "1900".toList, none, none, none⟩]
      [⟨"X".toList, some 0,
          some "\x7b\x7bInfobox person\n|occupation = singer\n\x7d\x7d".toList⟩,
        ⟨"X".toList, some 0,
          some "\x7b\x7bInfobox person\n|occupation = writer\n\x7d\x7d".toList⟩]).length = 2 ∧
    ([(⟨some "X".toList, some "1900".toList, none, none, none⟩ : RefRow)]).length = 1 := by
  constructor
  · decide
  · rfl

/-- C1 (amended): whenever every reference record matches at most one
accepted extracted row (in particular whenever accepted article titles
are pairwise distinct), the output has exactly one merged record per
reference record; without that proviso each record still appears at
least once but may be duplicated by join-key collisions. -/
theorem C1_left_join_cardinality (nndb : List RefRow) (arts : List Article)
    (h : ∀ r ∈ nndb,
      ((processCorpus nndb arts).filter (rowMatches r)).length ≤ 1) :
    (runPipeline nndb arts).length = nndb.length := by
  unfold runPipeline
  exact mergeAll_length nndb (processCorpus nndb arts) h

/-- C1 witness: with a single accepted article the record count is
preserved. -/
theorem C1_left_join_cardinality_witness :
    (runPipeline [⟨some "X".toList, some "1900".toList, none, none, none⟩]
      [⟨"X".toList, some 0,
        some "\x7b\x7bInfobox person\n|occupation = singer\n\x7d\x7d".toList⟩]).length =
    ([(⟨some "X".toList, some "1900".toList, none, none, none⟩ : RefRow)]).length :=
  C1_left_join_cardinality
    [⟨some "X".toList, some "1900".toList, none, none, none⟩]
    [⟨"X".toList, some 0,
      some "\x7b\x7bInfobox person\n|occupation = singer\n\x7d\x7d".toList⟩]
    (by decide)

